import Mathlib

/-!
Shallow embedding of minikube's `cluster` package
(`cmd/minikube/cmd/config/prompt.go`, second compilation unit, package
`cluster`): host lifecycle (StartHost / DeleteHost / GetHostStatus /
createHost), certificate provisioning (SetupCerts), cluster bootstrap
(UpdateCluster), and the service resolver
(getServicePortsFromServiceGetter, getServiceURLsWithClient,
GetServiceURLs, checkEndpointReady).

External collaborators (libmachine API, hypervisor drivers, ssh transfer,
the Kubernetes client, the filesystem) are modelled as oracles: an
environment record carries the result each external call would return,
and each embedded function additionally returns the trace of external
calls it performed, so that claims about "which calls happen" and "what
is persisted" can be stated directly.
-/

set_option autoImplicit false

namespace Minikube

/-- Go `error` values as they flow through the cluster package.
`msg` is a plain `errors.New`/`fmt.Errorf` error, `wrap` is
`errors.Wrap(err, ctx)`, `retriable` models the `util.RetriableError`
marker wrapper, `missingNodePort` models `MissingNodePortError` (carrying
the service fields its `Error()` prints), and `aggregate` models the
error produced by `util.MultiError.ToError` (see `MultiError` below). -/
inductive GoError where
  | msg (s : String)
  | wrap (ctx : String) (e : GoError)
  | retriable (e : GoError)
  | missingNodePort (namespace_ name serviceType : String)
  | aggregate (errs : List GoError)

/-- Trace entries: one constructor per externally visible call the
cluster package makes against its collaborators. -/
inductive Call where
  | cacheISO
  | newHost
  | apiCreate
  | apiSave
  | driverStart
  | driverRemove
  | apiRemove
  | configureAuth
  | updateFromURI
  | updateFromAsset
  | transfer (filename perms : String)
deriving DecidableEq, Repr

/-- A loaded/persisted host record (`*host.Host`); the driver behaviour
lives in the oracle environment, so the record itself is just identity. -/
structure HostH where
  name : String
deriving DecidableEq, Repr

/-- Oracle environment for `SetupCerts`: the results of the external
calls it makes (driver IP lookup, local cert generation, ssh client
construction, local file reads, remote transfers). -/
structure CertEnv where
  getIPRes : Except GoError String
  generateCertsRes : Option GoError
  sshClientRes : Option GoError
  readFileRes : String → Except GoError String
  transferRes : String → Option GoError

/-- Go `strings.HasSuffix`, modelled as a character-list suffix test
(equivalent to Go's byte-suffix test on these ASCII names). -/
def hasSuffix (s suffix : String) : Bool := suffix.data.isSuffixOf s.data

/-- The fixed certificate file list (`var certs = []string{...}`). -/
def certs : List String := ["ca.crt", "ca.key", "apiserver.crt", "apiserver.key"]

/-- The `for _, cert := range certs` loop body of `SetupCerts`: read the
local file, pick `"0600"` for `.key` files and `"0644"` otherwise, and
transfer; any failure aborts the loop. -/
def setupCertsLoop (env : CertEnv) : List String → Option GoError × List Call
  | [] => (none, [])
  | cert :: rest =>
    match env.readFileRes cert with
    | .error e => (some (.wrap "Error reading file" e), [])
    | .ok _data =>
      let perms := if hasSuffix cert ".key" then "0600" else "0644"
      match env.transferRes cert with
      | some e => (some (.wrap "Error transferring data" e), [.transfer cert perms])
      | none =>
        let r := setupCertsLoop env rest
        (r.1, .transfer cert perms :: r.2)

/-- `SetupCerts(d)`: resolve the driver IP, generate the four
certificate files, open an ssh channel, then transfer each file of
`certs` with suffix-selected permissions. Returns the Go error (if any)
and the trace of transfer calls performed. -/
def SetupCerts (env : CertEnv) : Option GoError × List Call :=
  match env.getIPRes with
  | .error e => (some (.wrap "Error getting ip from driver" e), [])
  | .ok _ip =>
    match env.generateCertsRes with
    | some e => (some (.wrap "Error generating certs" e), [])
    | none =>
      match env.sshClientRes with
      | some e => (some (.wrap "Error creating new ssh client" e), [])
      | none => setupCertsLoop env certs

theorem setupCertsLoop_transfer_perms (env : CertEnv) :
    ∀ (l : List String) (name perms : String),
      Call.transfer name perms ∈ (setupCertsLoop env l).2 →
      perms = (if hasSuffix name ".key" then "0600" else "0644") := by
  intro l
  induction l with
  | nil => intro name perms h; simp [setupCertsLoop] at h
  | cons cert rest ih =>
    intro name perms h
    simp only [setupCertsLoop] at h
    cases hr : env.readFileRes cert with
    | error e => rw [hr] at h; simp at h
    | ok d =>
      rw [hr] at h
      simp only at h
      cases ht : env.transferRes cert with
      | some e =>
        rw [ht] at h
        simp only [List.mem_singleton, Call.transfer.injEq] at h
        obtain ⟨h1, h2⟩ := h
        subst h1 h2; rfl
      | none =>
        rw [ht] at h
        simp only [List.mem_cons, Call.transfer.injEq] at h
        rcases h with ⟨h1, h2⟩ | h
        · subst h1 h2; rfl
        · exact ih name perms h

/-- C1: in `SetupCerts`, every certificate file transferred to the VM
whose filename ends in `".key"` is transferred with permission string
`"0600"`, and every other certificate file with `"0644"`. -/
theorem setupCerts_key_suffix_perms (env : CertEnv) (name perms : String)
    (h : Call.transfer name perms ∈ (SetupCerts env).2) :
    perms = (if hasSuffix name ".key" then "0600" else "0644") := by
  unfold SetupCerts at h
  cases hip : env.getIPRes with
  | error e => rw [hip] at h; simp at h
  | ok ip =>
    rw [hip] at h
    simp only at h
    cases hg : env.generateCertsRes with
    | some e => rw [hg] at h; simp at h
    | none =>
      rw [hg] at h
      simp only at h
      cases hs : env.sshClientRes with
      | some e => rw [hs] at h; simp at h
      | none =>
        rw [hs] at h
        exact setupCertsLoop_transfer_perms env certs name perms h

/-- All-successful oracle environment for `SetupCerts`, used to witness
the permissions theorem on a concrete run. -/
def certEnvOK : CertEnv where
  getIPRes := .ok "192.168.99.100"
  generateCertsRes := none
  sshClientRes := none
  readFileRes := fun _ => .ok "PEM"
  transferRes := fun _ => none

theorem setupCerts_key_suffix_perms_witness :
    Call.transfer "ca.key" "0600" ∈ (SetupCerts certEnvOK).2 ∧
      "0600" = (if hasSuffix "ca.key" ".key" then "0600" else "0644") := by
  refine ⟨?_, ?_⟩
  · show Call.transfer "ca.key" "0600" ∈ (SetupCerts certEnvOK).2
    decide
  · exact setupCerts_key_suffix_perms certEnvOK "ca.key" "0600" (by decide)

/-- Power states of the docker-machine `state` package; `stateString`
below is its `String()` method (the `None` state prints as `""`). -/
inductive MachState where
  | none_
  | running
  | paused
  | saved
  | stopped
  | stopping
  | starting
  | error_
deriving DecidableEq, Repr

/-- `state.State.String()`: the human-readable token of a power state. -/
def MachState.stateString : MachState → String
  | .none_ => ""
  | .running => "Running"
  | .paused => "Paused"
  | .saved => "Saved"
  | .stopped => "Stopped"
  | .stopping => "Stopping"
  | .starting => "Starting"
  | .error_ => "Error"

/-- A Kubernetes `v1.ServicePort`: only the `NodePort` field is read by
the resolver. -/
structure ServicePort where
  nodePort : Int
deriving DecidableEq, Repr

/-- The `Spec` of a `v1.Service`: its `Type` (printed by
`MissingNodePortError.Error()`) and its port list. -/
structure ServiceSpec where
  serviceType : String
  ports : List ServicePort
deriving DecidableEq, Repr

/-- A Kubernetes `v1.Service`, restricted to the fields the resolver
reads (`Namespace`, `Name`, `Spec`). -/
structure Service where
  namespace_ : String
  name : String
  spec : ServiceSpec
deriving DecidableEq, Repr

/-- The `serviceGetter` interface: `Get` one service by name, `List` the
services of the namespace the getter is scoped to. -/
structure ServiceGetter where
  get : String → Except GoError Service
  list : Except GoError (List Service)

/-- A Kubernetes clientset, as used here: `Services(namespace)` yields a
namespace-scoped getter. -/
structure ClientM where
  services : String → ServiceGetter

/-- Oracle environment for the host-lifecycle functions: one field per
external call (`api.Exists`, `api.Load`, `h.Driver.GetState`, ...).
`getStateRes` is a pair because Go's `GetState` returns both a state and
an error, and `GetHostStatus` reads the state before checking the error.
`marshalRes` is `json.Marshal(driver)`, `clientRes` is
`GetKubernetesClient()`. -/
structure Env where
  existsRes : Except GoError Bool
  loadRes : Except GoError HostH
  getStateRes : MachState × Option GoError
  startRes : Option GoError
  saveRes : Option GoError
  configureAuthRes : Option GoError
  getIPRes : Except GoError String
  cacheRes : Option GoError
  marshalRes : Except GoError String
  newHostRes : Except GoError HostH
  createRes : Option GoError
  driverRemoveRes : Option GoError
  apiRemoveRes : Option GoError
  clientRes : Except GoError ClientM

/-- Result of a host-lifecycle entry point: a value, a returned Go
error, or process termination via `glog.Exitf`. -/
inductive HostResult where
  | ok (h : HostH)
  | err (e : GoError)
  | exited (diagnostic : String)

/-- An error collector. Modelled from the spec: `util.MultiError`
(package `pkg/minikube/util`, not under `src/`) — "all resulting errors
are aggregated and reported together"; `Collect` keeps each non-nil
error, `ToError` reports nil when nothing was collected and the
aggregate of every collected error otherwise. -/
structure MultiError where
  errors : List GoError

/-- Collect one call result, keeping the error when there is one. -/
def MultiError.collect (m : MultiError) (e : Option GoError) : MultiError :=
  match e with
  | none => m
  | some err => ⟨m.errors ++ [err]⟩

/-- Convert the collected errors into a single result: `none` when no
error was collected, otherwise the aggregate of all of them. -/
def MultiError.toError (m : MultiError) : Option GoError :=
  match m.errors with
  | [] => none
  | _ => some (.aggregate m.errors)

/-- `DeleteHost(api)`: load the host record, then collect the results of
`host.Driver.Remove()` and `api.Remove(name)` into a `MultiError` and
return its `ToError()`. Both removals are always attempted once the
record is loaded. -/
def DeleteHost (env : Env) : Option GoError × List Call :=
  match env.loadRes with
  | .error e => (some (.wrap "Error deleting host" e), [])
  | .ok _h =>
    let m := ((MultiError.mk []).collect env.driverRemoveRes).collect env.apiRemoveRes
    (m.toError, [.driverRemove, .apiRemove])

/-- The list of failures a `DeleteHost` result reports. -/
def errorsOf : Option GoError → List GoError
  | none => []
  | some (.aggregate l) => l
  | some e => [e]

/-- C2: once the host record is loaded, `DeleteHost` attempts both the
driver-level removal and the local record removal, and its result
aggregates every failure that occurred — each failing removal's error
appears in the result, and the result is error-free exactly when both
removals succeeded. -/
theorem deleteHost_aggregates_failures (env : Env) (h : HostH)
    (hload : env.loadRes = .ok h) :
    (Call.driverRemove ∈ (DeleteHost env).2 ∧ Call.apiRemove ∈ (DeleteHost env).2) ∧
      (∀ e, env.driverRemoveRes = some e → e ∈ errorsOf (DeleteHost env).1) ∧
      (∀ e, env.apiRemoveRes = some e → e ∈ errorsOf (DeleteHost env).1) ∧
      ((DeleteHost env).1 = none ↔ (env.driverRemoveRes = none ∧ env.apiRemoveRes = none)) := by
  unfold DeleteHost
  rw [hload]
  cases hd : env.driverRemoveRes with
  | none =>
    cases ha : env.apiRemoveRes with
    | none => simp [MultiError.collect, MultiError.toError, errorsOf]
    | some e2 => simp [MultiError.collect, MultiError.toError, errorsOf]
  | some e1 =>
    cases ha : env.apiRemoveRes with
    | none => simp [MultiError.collect, MultiError.toError, errorsOf]
    | some e2 => simp [MultiError.collect, MultiError.toError, errorsOf]

/-- Oracle environment where both removals fail, witnessing the
aggregation theorem on a concrete run. -/
def deleteEnvBothFail : Env where
  existsRes := .ok true
  loadRes := .ok ⟨"minikube"⟩
  getStateRes := (.running, none)
  startRes := none
  saveRes := none
  configureAuthRes := none
  getIPRes := .ok "192.168.99.100"
  cacheRes := none
  marshalRes := .ok "{}"
  newHostRes := .ok ⟨"minikube"⟩
  createRes := none
  driverRemoveRes := some (.msg "driver remove failed")
  apiRemoveRes := some (.msg "record remove failed")
  clientRes := .error (.msg "no client")

theorem deleteHost_aggregates_failures_witness :
    deleteEnvBothFail.loadRes = .ok ⟨"minikube"⟩ ∧
      GoError.msg "driver remove failed" ∈ errorsOf (DeleteHost deleteEnvBothFail).1 ∧
      GoError.msg "record remove failed" ∈ errorsOf (DeleteHost deleteEnvBothFail).1 := by
  have h := deleteHost_aggregates_failures deleteEnvBothFail ⟨"minikube"⟩ rfl
  exact ⟨rfl, h.2.1 _ rfl, h.2.2.1 _ rfl⟩

/-- `GetHostStatus(api)`: "Does Not Exist" when the machine is absent;
otherwise load the record and query the driver state, mapping an empty
state string to "Does Not Exist" with a nil error before the state
query's own error is even examined. -/
def GetHostStatus (env : Env) : Except GoError String :=
  match env.existsRes with
  | .error e => .error (.wrap "Error checking that api exists" e)
  | .ok false => .ok "Does Not Exist"
  | .ok true =>
    match env.loadRes with
    | .error e => .error (.wrap "Error loading api" e)
    | .ok _h =>
      if (env.getStateRes.1).stateString = "" then .ok "Does Not Exist"
      else
        match env.getStateRes.2 with
        | some e => .error (.wrap "Error getting host state" e)
        | none => .ok (env.getStateRes.1).stateString

/-- C9: on an existing, loadable host whose driver reports a state with
an empty string representation, `GetHostStatus` returns "Does Not Exist"
with a nil error — even when the state query also returned an error. -/
theorem getHostStatus_empty_state_dne (env : Env) (h : HostH)
    (hex : env.existsRes = .ok true) (hload : env.loadRes = .ok h)
    (hst : (env.getStateRes.1).stateString = "") :
    GetHostStatus env = .ok "Does Not Exist" := by
  unfold GetHostStatus
  rw [hex, hload]
  simp only
  rw [if_pos hst]

/-- Oracle environment whose driver reports the `None` state together
with an error, witnessing the empty-state-string theorem. -/
def statusEnvNoneState : Env :=
  { deleteEnvBothFail with
      getStateRes := (.none_, some (.msg "driver state query failed")),
      driverRemoveRes := none,
      apiRemoveRes := none }

theorem getHostStatus_empty_state_dne_witness :
    statusEnvNoneState.existsRes = .ok true ∧
      (statusEnvNoneState.getStateRes.1).stateString = "" ∧
      statusEnvNoneState.getStateRes.2 = some (.msg "driver state query failed") ∧
      GetHostStatus statusEnvNoneState = .ok "Does Not Exist" :=
  ⟨rfl, rfl, rfl,
    getHostStatus_empty_state_dne statusEnvNoneState ⟨"minikube"⟩ rfl rfl rfl⟩

/-- The machine configuration fields `createHost` branches on; the VM
sizing fields only parameterise the driver value and are folded into the
`marshalRes` oracle. -/
structure MachineConfig where
  vmDriver : String
deriving DecidableEq, Repr

/-- The backend tags of the `switch config.VMDriver` in `createHost`. -/
def supportedDrivers : List String :=
  ["virtualbox", "vmwarefusion", "kvm", "xhyve", "hyperv"]

/-- `createHost(api, config)`: cache the boot ISO, select a driver by
backend tag (terminating the process via `glog.Exitf` on an unsupported
tag), marshal the driver, then `api.NewHost`, `api.Create`, `api.Save`.
Returns the outcome, the trace of external calls, and the persisted
record store after the call (`api.Save(h)` is the store write). -/
def createHost (env : Env) (config : MachineConfig) (store : Option HostH) :
    HostResult × List Call × Option HostH :=
  match env.cacheRes with
  | some e =>
    (.err (.wrap "Error attempting to cache minikube ISO from URL" e), [.cacheISO], store)
  | none =>
    if config.vmDriver ∈ supportedDrivers then
      match env.marshalRes with
      | .error e => (.err (.wrap "Error marshalling json" e), [.cacheISO], store)
      | .ok _data =>
        match env.newHostRes with
        | .error e => (.err (.wrap "Error creating new host" e), [.cacheISO, .newHost], store)
        | .ok h =>
          match env.createRes with
          | some e =>
            (.err (.wrap "Error creating host" e), [.cacheISO, .newHost, .apiCreate], store)
          | none =>
            match env.saveRes with
            | some e =>
              (.err (.wrap "Error attempting to save" e),
                [.cacheISO, .newHost, .apiCreate, .apiSave], store)
            | none => (.ok h, [.cacheISO, .newHost, .apiCreate, .apiSave], some h)
    else
      (.exited ("Unsupported driver: " ++ config.vmDriver), [.cacheISO], store)

/-- `StartHost(api, config)`: create the host when it does not exist;
otherwise load it, query its state, and only when the state is not
`Running` invoke `Driver.Start` and `api.Save`; finally run
`ConfigureAuth`, whose failure is wrapped as retriable. -/
def StartHost (env : Env) (config : MachineConfig) (store : Option HostH) :
    HostResult × List Call × Option HostH :=
  match env.existsRes with
  | .error e => (.err (.wrap "Error checking if host exists" e), [], store)
  | .ok false => createHost env config store
  | .ok true =>
    match env.loadRes with
    | .error e => (.err (.wrap "Error loading existing host" e), [], store)
    | .ok h =>
      match env.getStateRes.2 with
      | some e => (.err (.wrap "Error getting state for host" e), [], store)
      | none =>
        if env.getStateRes.1 ≠ MachState.running then
          match env.startRes with
          | some e => (.err (.wrap "Error starting stopped host" e), [.driverStart], store)
          | none =>
            match env.saveRes with
            | some e =>
              (.err (.wrap "Error saving started host" e), [.driverStart, .apiSave], store)
            | none =>
              match env.configureAuthRes with
              | some e =>
                (.err (.retriable (.wrap "Error configuring auth on host" e)),
                  [.driverStart, .apiSave, .configureAuth], some h)
              | none => (.ok h, [.driverStart, .apiSave, .configureAuth], some h)
        else
          match env.configureAuthRes with
          | some e =>
            (.err (.retriable (.wrap "Error configuring auth on host" e)),
              [.configureAuth], store)
          | none => (.ok h, [.configureAuth], store)

/-- C4: when the host record exists, loads, and the driver reports the
`Running` state, `StartHost` performs no `Driver.Start` call and no
`api.Save` call, and the persisted host record is unchanged. -/
theorem startHost_running_idempotent (env : Env) (config : MachineConfig)
    (store : Option HostH) (h : HostH)
    (hex : env.existsRes = .ok true) (hload : env.loadRes = .ok h)
    (hst : env.getStateRes.1 = MachState.running) :
    Call.driverStart ∉ (StartHost env config store).2.1 ∧
      Call.apiSave ∉ (StartHost env config store).2.1 ∧
      (StartHost env config store).2.2 = store := by
  unfold StartHost
  rw [hex, hload]
  simp only
  cases hse : env.getStateRes.2 with
  | some e => simp
  | none =>
    simp only
    rw [if_neg (by simp [hst])]
    cases hca : env.configureAuthRes with
    | some e => simp
    | none => simp

/-- Oracle environment for an existing, already-Running host, witnessing
the idempotence theorem. -/
def startEnvRunning : Env :=
  { deleteEnvBothFail with driverRemoveRes := none, apiRemoveRes := none }

theorem startHost_running_idempotent_witness :
    startEnvRunning.existsRes = .ok true ∧
      startEnvRunning.getStateRes.1 = MachState.running ∧
      Call.driverStart ∉ (StartHost startEnvRunning ⟨"virtualbox"⟩ (some ⟨"minikube"⟩)).2.1 ∧
      (StartHost startEnvRunning ⟨"virtualbox"⟩ (some ⟨"minikube"⟩)).2.2 = some ⟨"minikube"⟩ := by
  have h := startHost_running_idempotent startEnvRunning ⟨"virtualbox"⟩
    (some ⟨"minikube"⟩) ⟨"minikube"⟩ rfl rfl rfl
  exact ⟨rfl, rfl, h.1, h.2.2⟩

/-- C7: for a backend tag outside the supported set, `createHost` never
reaches `api.NewHost`, `api.Create` or `api.Save`, leaves the persisted
record unchanged, and — once the ISO cache step has succeeded, i.e. once
driver selection is reached — terminates the process with the
"Unsupported driver" diagnostic. -/
theorem createHost_unsupported_driver_exits (env : Env) (config : MachineConfig)
    (store : Option HostH) (hdrv : config.vmDriver ∉ supportedDrivers) :
    (Call.newHost ∉ (createHost env config store).2.1 ∧
        Call.apiCreate ∉ (createHost env config store).2.1 ∧
        Call.apiSave ∉ (createHost env config store).2.1 ∧
        (createHost env config store).2.2 = store) ∧
      (env.cacheRes = none →
        (createHost env config store).1 =
          HostResult.exited ("Unsupported driver: " ++ config.vmDriver)) := by
  unfold createHost
  cases hc : env.cacheRes with
  | some e => simp
  | none =>
    rw [if_neg hdrv]
    simp

theorem createHost_unsupported_driver_exits_witness :
    ("qemu" : String) ∉ supportedDrivers ∧
      (createHost startEnvRunning ⟨"qemu"⟩ none).1 =
        HostResult.exited "Unsupported driver: qemu" := by
  have h := createHost_unsupported_driver_exits startEnvRunning ⟨"qemu"⟩ none (by decide)
  exact ⟨by decide, h.2 rfl⟩

/-- A parsed `text/template` as the resolver uses it: `Execute` renders
the `{IP, Port}` pair to a string, and may fail. The Go `*template.Template`
argument may be nil, modelled by `Option Template` at the call sites. -/
def Template : Type := String → Int → Except GoError String

/-- A modelled `net/url.Parse` followed by `u.String()`: parsing the
rendered document, and may fail. -/
def URLParser : Type := String → Except GoError String

/-- `getServiceFromServiceGetter`: `services.Get(service)`, wrapping a
lookup failure in a plain (non-distinguishable) error. -/
def getServiceFromServiceGetter (services : ServiceGetter) (service : String) :
    Except GoError Service :=
  match services.get service with
  | .error _e => .error (.msg ("Error getting " ++ service ++ " service"))
  | .ok svc => .ok svc

/-- `getServicePortsFromServiceGetter`: collect the `NodePort` of every
port whose `NodePort` is strictly positive; when none qualifies, fail
with the distinguishable `MissingNodePortError`. -/
def getServicePortsFromServiceGetter (services : ServiceGetter) (service : String) :
    Except GoError (List Int) :=
  match getServiceFromServiceGetter services service with
  | .error e => .error e
  | .ok svc =>
    let nodePorts :=
      if svc.spec.ports.length > 0 then
        (svc.spec.ports.filter (fun p => p.nodePort > 0)).map (fun p => p.nodePort)
      else []
    if nodePorts.length = 0 then
      .error (.missingNodePort svc.namespace_ svc.name svc.spec.serviceType)
    else .ok nodePorts

/-- `getServicePorts`: scope the clientset to the namespace, then
extract the node ports. -/
def getServicePorts (client : ClientM) (namespace_ service : String) :
    Except GoError (List Int) :=
  getServicePortsFromServiceGetter (client.services namespace_) service

/-- The `for _, port := range ports` loop of `getServiceURLsWithClient`:
render the template with `(IP, Port)`, parse the result as a URL, and
append its string form; any failure aborts. -/
def renderURLs (render : Template) (parse : URLParser) (ip : String) :
    List Int → Except GoError (List String)
  | [] => .ok []
  | p :: ps =>
    match render ip p with
    | .error e => .error e
    | .ok doc =>
      match parse doc with
      | .error e => .error e
      | .ok u =>
        match renderURLs render parse ip ps with
        | .error e => .error e
        | .ok rest => .ok (u :: rest)

/-- `getServiceURLsWithClient`: a nil template is an immediate usage
error; otherwise fetch the service's node ports and render one URL per
port. -/
def getServiceURLsWithClient (t : Option Template) (parse : URLParser)
    (client : ClientM) (ip namespace_ service : String) :
    Except GoError (List String) :=
  match t with
  | none => .error (.msg "Error, attempted to generate service url with nil --format template")
  | some render =>
    match getServicePorts client namespace_ service with
    | .error e => .error e
    | .ok ports => renderURLs render parse ip ports

/-- A getter that always returns the given service, scoping aside; used
to state port-resolution claims without extra hypotheses. -/
def constGetter (svc : Service) : ServiceGetter where
  get := fun _ => .ok svc
  list := .ok [svc]

/-- A clientset whose every namespace holds exactly the given service. -/
def constClient (svc : Service) : ClientM where
  services := fun _ => constGetter svc

/-- A concrete URL template rendering `http://IP:PORT`, standing for the
default `--format` template. -/
def demoRender : Template := fun ip p => .ok ("http://" ++ ip ++ ":" ++ toString p)

/-- A concrete URL parser for which parse-then-print is the identity,
standing for `url.Parse` on well-formed URLs. -/
def demoParse : URLParser := fun s => .ok s

/-- C3: a service port counts as externally reachable exactly when its
`NodePort` is strictly positive. Ports `[{NodePort: 0}, {NodePort: 31000}]`
resolve to the single port 31000 and hence to exactly one URL; a service
whose `NodePort` values are all 0, or that has no ports, yields the
distinguishable `MissingNodePortError`, not a generic error. The final
conjunct states the general rule: the resolver returns exactly the
strictly-positive node ports, and `MissingNodePortError` when there are
none. -/
theorem servicePorts_strictly_positive (ns nm ty name : String) :
    getServicePortsFromServiceGetter (constGetter ⟨ns, nm, ⟨ty, [⟨0⟩, ⟨31000⟩]⟩⟩) name
        = .ok [31000] ∧
      getServiceURLsWithClient (some demoRender) demoParse
          (constClient ⟨ns, nm, ⟨ty, [⟨0⟩, ⟨31000⟩]⟩⟩) "10.0.0.5" ns name
        = .ok ["http://10.0.0.5:31000"] ∧
      getServicePortsFromServiceGetter (constGetter ⟨ns, nm, ⟨ty, [⟨0⟩, ⟨0⟩]⟩⟩) name
        = .error (.missingNodePort ns nm ty) ∧
      getServicePortsFromServiceGetter (constGetter ⟨ns, nm, ⟨ty, []⟩⟩) name
        = .error (.missingNodePort ns nm ty) ∧
      (∀ svc : Service,
        getServicePortsFromServiceGetter (constGetter svc) name =
          if ((svc.spec.ports.filter (fun p => p.nodePort > 0)).map
              (fun p => p.nodePort)).length = 0 then
            .error (.missingNodePort svc.namespace_ svc.name svc.spec.serviceType)
          else .ok ((svc.spec.ports.filter (fun p => p.nodePort > 0)).map
            (fun p => p.nodePort))) := by
  refine ⟨?_, ?_, ?_, ?_, ?_⟩
  · rfl
  · rfl
  · rfl
  · rfl
  · intro svc
    unfold getServicePortsFromServiceGetter getServiceFromServiceGetter constGetter
    simp only
    cases hp : svc.spec.ports with
    | nil => simp
    | cons p ps => simp

/-- A projection of one live Service into its resolved URLs
(`type ServiceURL struct`); a service included with no URLs has
`urls = []` (Go's zero-value `nil` slice). -/
structure ServiceURL where
  namespace_ : String
  name : String
  urls : List String
deriving DecidableEq, Repr

/-- The `for _, svc := range svcs.Items` loop of `GetServiceURLs`: map
each listed service through the single-service resolver; a
`MissingNodePortError` adds the service with an empty URL list and
continues, any other error aborts the whole listing. -/
def getServiceURLsLoop (t : Option Template) (parse : URLParser) (client : ClientM)
    (ip : String) : List Service → Except GoError (List ServiceURL)
  | [] => .ok []
  | svc :: rest =>
    match getServiceURLsWithClient t parse client ip svc.namespace_ svc.name with
    | .error e =>
      match e with
      | .missingNodePort _ _ _ =>
        match getServiceURLsLoop t parse client ip rest with
        | .error e2 => .error e2
        | .ok tail => .ok (⟨svc.namespace_, svc.name, []⟩ :: tail)
      | _ => .error e
    | .ok urls =>
      match getServiceURLsLoop t parse client ip rest with
      | .error e2 => .error e2
      | .ok tail => .ok (⟨svc.namespace_, svc.name, urls⟩ :: tail)

/-- `GetServiceURLs(api, namespace, t)`: check and load the host, get its
IP, build the Kubernetes client, list the namespace's services and map
each through the single-service resolver. -/
def GetServiceURLs (env : Env) (t : Option Template) (parse : URLParser)
    (namespace_ : String) : Except GoError (List ServiceURL) :=
  match env.existsRes with
  | .error e => .error (.wrap "Error checking that api exists" e)
  | .ok false => .error (.msg "Machine does not exist")
  | .ok true =>
    match env.loadRes with
    | .error e => .error (.wrap "Error loading api" e)
    | .ok _h =>
      match env.getIPRes with
      | .error e => .error e
      | .ok ip =>
        match env.clientRes with
        | .error e => .error e
        | .ok client =>
          match (client.services namespace_).list with
          | .error e => .error e
          | .ok svcs => getServiceURLsLoop t parse client ip svcs

theorem getServiceURLsLoop_abort (t : Option Template) (parse : URLParser)
    (client : ClientM) (ip : String) :
    ∀ (pre : List Service) (svc : Service) (rest : List Service) (e : GoError),
      (∀ s ∈ pre,
        (∃ us, getServiceURLsWithClient t parse client ip s.namespace_ s.name = .ok us) ∨
          (∃ a b c, getServiceURLsWithClient t parse client ip s.namespace_ s.name
            = .error (.missingNodePort a b c))) →
      getServiceURLsWithClient t parse client ip svc.namespace_ svc.name = .error e →
      (∀ a b c, e ≠ .missingNodePort a b c) →
      getServiceURLsLoop t parse client ip (pre ++ svc :: rest) = .error e := by
  intro pre
  induction pre with
  | nil =>
    intro svc rest e _hpre hres hne
    simp only [List.nil_append, getServiceURLsLoop]
    rw [hres]
    cases e with
    | msg s => rfl
    | wrap ctx e => rfl
    | retriable e => rfl
    | missingNodePort a b c => exact absurd rfl (hne a b c)
    | aggregate l => rfl
  | cons s pre' ih =>
    intro svc rest e hpre hres hne
    have htail := ih svc rest e
      (fun x hx => hpre x (List.mem_cons_of_mem s hx)) hres hne
    simp only [List.cons_append, getServiceURLsLoop]
    rcases hpre s (List.mem_cons_self s pre') with ⟨us, hok⟩ | ⟨a, b, c, hmiss⟩
    · rw [hok]
      simp only [List.append_eq]
      rw [htail]
    · rw [hmiss]
      simp only [List.append_eq]
      rw [htail]

/-- C5: `GetServiceURLs` maps every listed service through the
single-service resolver, treating `MissingNodePortError` as non-fatal: a
namespace listing a service that resolves to URLs and a service that
hits the missing-node-port condition yields exactly two entries, the
second with an empty URL list; and (second conjunct) any error other
than `MissingNodePortError` aborts the whole listing: whenever some
listed service — at any position — resolves to such an error and the
services before it did not themselves abort (each resolved to URLs or to
the missing-node-port condition), the listing returns that error,
discarding the entries already produced. -/
theorem getServiceURLs_missing_node_port_non_fatal :
    (∀ (env : Env) (t : Option Template) (parse : URLParser) (ns ip : String)
        (client : ClientM) (h0 : HostH) (s1 s2 : Service) (us : List String)
        (mns mnm mty : String),
      env.existsRes = .ok true →
      env.loadRes = .ok h0 →
      env.getIPRes = .ok ip →
      env.clientRes = .ok client →
      (client.services ns).list = .ok [s1, s2] →
      getServiceURLsWithClient t parse client ip s1.namespace_ s1.name = .ok us →
      getServiceURLsWithClient t parse client ip s2.namespace_ s2.name
          = .error (.missingNodePort mns mnm mty) →
      GetServiceURLs env t parse ns
          = .ok [⟨s1.namespace_, s1.name, us⟩, ⟨s2.namespace_, s2.name, []⟩]) ∧
    (∀ (env : Env) (t : Option Template) (parse : URLParser) (ns ip : String)
        (client : ClientM) (h0 : HostH) (pre : List Service) (svc : Service)
        (rest : List Service) (e : GoError),
      env.existsRes = .ok true →
      env.loadRes = .ok h0 →
      env.getIPRes = .ok ip →
      env.clientRes = .ok client →
      (client.services ns).list = .ok (pre ++ svc :: rest) →
      (∀ s ∈ pre,
        (∃ us, getServiceURLsWithClient t parse client ip s.namespace_ s.name = .ok us) ∨
          (∃ a b c, getServiceURLsWithClient t parse client ip s.namespace_ s.name
            = .error (.missingNodePort a b c))) →
      getServiceURLsWithClient t parse client ip svc.namespace_ svc.name = .error e →
      (∀ a b c, e ≠ .missingNodePort a b c) →
      GetServiceURLs env t parse ns = .error e) := by
  constructor
  · intro env t parse ns ip client h0 s1 s2 us mns mnm mty hex hload hip hcl hlist h1 h2
    unfold GetServiceURLs
    rw [hex, hload, hip, hcl]
    simp only
    rw [hlist]
    simp only [getServiceURLsLoop]
    rw [h1, h2]
  · intro env t parse ns ip client h0 pre svc rest e hex hload hip hcl hlist hpre hres hne
    unfold GetServiceURLs
    rw [hex, hload, hip, hcl]
    simp only
    rw [hlist]
    exact getServiceURLsLoop_abort t parse client ip pre svc rest e hpre hres hne

/-- Two concrete services: one with node port 31000, one with no node
port, listed together in namespace `"default"`. -/
def svcWithPort : Service := ⟨"default", "dashboard", ⟨"NodePort", [⟨0⟩, ⟨31000⟩]⟩⟩

/-- The companion service whose ports all lack a node port. -/
def svcNoPort : Service := ⟨"default", "clusterip", ⟨"ClusterIP", [⟨0⟩]⟩⟩

/-- A clientset listing both concrete services, with per-name `Get`. -/
def twoSvcClient : ClientM where
  services := fun _ =>
    { get := fun n =>
        if n = "dashboard" then .ok svcWithPort
        else if n = "clusterip" then .ok svcNoPort
        else .error (.msg "not found")
      list := .ok [svcWithPort, svcNoPort] }

/-- Oracle environment for the service-listing witness. -/
def urlsEnv : Env :=
  { startEnvRunning with clientRes := .ok twoSvcClient }

/-- A service whose `Get` fails with a plain lookup error, so its
resolution yields a generic (non-missing-node-port) error. -/
def svcBroken : Service := ⟨"default", "broken", ⟨"NodePort", [⟨31000⟩]⟩⟩

/-- A clientset listing a resolvable service first and `svcBroken`
second, so the abort happens after an entry was already produced. -/
def abortClient : ClientM where
  services := fun _ =>
    { get := fun n =>
        if n = "dashboard" then .ok svcWithPort
        else .error (.msg "not found")
      list := .ok [svcWithPort, svcBroken] }

/-- Oracle environment for the later-position abort witness. -/
def abortEnv : Env :=
  { startEnvRunning with clientRes := .ok abortClient }

theorem getServiceURLs_missing_node_port_non_fatal_witness :
    (twoSvcClient.services "default").list = .ok [svcWithPort, svcNoPort] ∧
      GetServiceURLs urlsEnv (some demoRender) demoParse "default"
        = .ok [⟨"default", "dashboard", ["http://192.168.99.100:31000"]⟩,
            ⟨"default", "clusterip", []⟩] ∧
      GetServiceURLs abortEnv (some demoRender) demoParse "default"
        = .error (.msg "Error getting broken service") := by
  refine ⟨rfl, ?_, ?_⟩
  · exact getServiceURLs_missing_node_port_non_fatal.1 urlsEnv (some demoRender) demoParse
      "default" "192.168.99.100" twoSvcClient ⟨"minikube"⟩ svcWithPort svcNoPort
      ["http://192.168.99.100:31000"] "default" "clusterip" "ClusterIP"
      rfl rfl rfl rfl rfl rfl rfl
  · refine getServiceURLs_missing_node_port_non_fatal.2 abortEnv (some demoRender) demoParse
      "default" "192.168.99.100" abortClient ⟨"minikube"⟩ [svcWithPort] svcBroken []
      (.msg "Error getting broken service") rfl rfl rfl rfl rfl ?_ rfl ?_
    · intro s hs
      rcases List.mem_singleton.mp hs with rfl
      exact Or.inl ⟨["http://192.168.99.100:31000"], rfl⟩
    · intro a b c h
      cases h

/-- A `v1.EndpointAddress`: only its presence matters here. -/
structure EndpointAddress where
  ip : String
deriving DecidableEq, Repr

/-- A `v1.EndpointSubset`, restricted to the `Addresses` field the
readiness check reads. -/
structure EndpointSubset where
  addresses : List EndpointAddress
deriving DecidableEq, Repr

/-- A `v1.Endpoints` object: its list of subsets. -/
structure Endpoints where
  subsets : List EndpointSubset
deriving DecidableEq, Repr

/-- The `for _, subset := range endpoint.Subsets` loop of
`checkEndpointReady`: the first subset with no addresses yields a
retriable not-ready error. -/
def checkSubsets : List EndpointSubset → Option GoError
  | [] => none
  | s :: rest =>
    if s.addresses.length = 0 then
      some (.retriable (.msg "No endpoints for service are ready yet"))
    else checkSubsets rest

/-- `checkEndpointReady(endpoint)`: retriable not-ready when there are
no subsets, retriable not-ready when any subset has no addresses, nil
otherwise. -/
def checkEndpointReady (endpoint : Endpoints) : Option GoError :=
  if endpoint.subsets.length = 0 then
    some (.retriable (.msg "Endpoint for service is not ready yet"))
  else checkSubsets endpoint.subsets

/-- The endpoint refuting C6's "exactly when" characterisation: it has a
subset with an address (so the claimed condition holds) yet also an
empty subset, which the code reports as not ready. -/
def mixedEndpoint : Endpoints := ⟨[⟨[⟨"10.0.0.5"⟩]⟩, ⟨[]⟩]⟩

/-- C6 counterexample: `mixedEndpoint` has at least one subset and that
subset has at least one member address, yet `checkEndpointReady` does
not report it ready — so readiness does not hold exactly when some
subset has an address. -/
theorem checkEndpointReady_exists_reading_false :
    ¬ ((checkEndpointReady mixedEndpoint = none) ↔
        (mixedEndpoint.subsets ≠ [] ∧
          ∃ s ∈ mixedEndpoint.subsets, s.addresses ≠ [])) := by
  intro hiff
  have hready : checkEndpointReady mixedEndpoint = none := by
    refine hiff.mpr ⟨by simp [mixedEndpoint], ?_⟩
    exact ⟨⟨[⟨"10.0.0.5"⟩]⟩, by simp [mixedEndpoint], by simp⟩
  have : checkEndpointReady mixedEndpoint =
      some (.retriable (.msg "No endpoints for service are ready yet")) := rfl
  rw [this] at hready
  exact Option.noConfusion hready

theorem checkSubsets_none_iff (l : List EndpointSubset) :
    checkSubsets l = none ↔ ∀ s ∈ l, s.addresses ≠ [] := by
  induction l with
  | nil => simp [checkSubsets]
  | cons s rest ih =>
    simp only [checkSubsets]
    by_cases h : s.addresses.length = 0
    · rw [if_pos h]
      simp only [List.length_eq_zero] at h
      simp [h]
    · rw [if_neg h]
      simp only [List.length_eq_zero] at h
      rw [ih]
      constructor
      · intro hall t ht
        rcases List.mem_cons.mp ht with rfl | ht'
        · exact h
        · exact hall t ht'
      · intro hall t ht
        exact hall t (List.mem_cons_of_mem s ht)

/-- C6 amended: `checkEndpointReady` reports an Endpoints object with
zero subsets as not-ready via a retriable error, and one with a single
subset containing one address as ready; in general readiness holds
exactly when there is at least one subset and every subset has at least
one member address. -/
theorem checkEndpointReady_ready_iff :
    (∀ ep : Endpoints,
        checkEndpointReady ep = none ↔
          (ep.subsets ≠ [] ∧ ∀ s ∈ ep.subsets, s.addresses ≠ [])) ∧
      checkEndpointReady ⟨[]⟩
        = some (.retriable (.msg "Endpoint for service is not ready yet")) ∧
      (∀ a : EndpointAddress, checkEndpointReady ⟨[⟨[a]⟩]⟩ = none) := by
  refine ⟨?_, rfl, fun a => rfl⟩
  intro ep
  unfold checkEndpointReady
  by_cases h : ep.subsets.length = 0
  · rw [if_pos h]
    simp only [List.length_eq_zero] at h
    simp [h]
  · rw [if_neg h]
    simp only [List.length_eq_zero] at h
    rw [checkSubsets_none_iff]
    simp [h]

theorem checkEndpointReady_ready_iff_witness :
    checkEndpointReady ⟨[⟨[⟨"10.0.0.5"⟩]⟩]⟩ = none :=
  checkEndpointReady_ready_iff.2.2 ⟨"10.0.0.5"⟩

theorem renderURLs_ok_pointwise (render : Template) (parse : URLParser) (ip : String) :
    ∀ (ports : List Int) (urls : List String),
      renderURLs render parse ip ports = .ok urls →
      urls.length = ports.length ∧
        ∀ (i : Nat) (hp : i < ports.length) (hu : i < urls.length),
          ∃ doc, render ip (ports.get ⟨i, hp⟩) = .ok doc ∧
            parse doc = .ok (urls.get ⟨i, hu⟩) := by
  intro ports
  induction ports with
  | nil =>
    intro urls h
    simp only [renderURLs] at h
    cases h
    exact ⟨rfl, fun i hp _ => absurd hp (by simp)⟩
  | cons p ps ih =>
    intro urls h
    simp only [renderURLs] at h
    cases hr : render ip p with
    | error e => rw [hr] at h; cases h
    | ok doc =>
      rw [hr] at h
      simp only at h
      cases hpar : parse doc with
      | error e => rw [hpar] at h; cases h
      | ok u =>
        rw [hpar] at h
        simp only at h
        cases hrest : renderURLs render parse ip ps with
        | error e => rw [hrest] at h; cases h
        | ok rest =>
          rw [hrest] at h
          simp only at h
          cases h
          obtain ⟨hlen, hpt⟩ := ih rest hrest
          refine ⟨by simp [hlen], ?_⟩
          intro i hp hu
          cases i with
          | zero => exact ⟨doc, hr, hpar⟩
          | succ j =>
            have hp' : j < ps.length := Nat.lt_of_succ_lt_succ hp
            have hu' : j < rest.length := Nat.lt_of_succ_lt_succ hu
            simpa using hpt j hp' hu'

/-- C10: whenever `getServiceURLsWithClient` is called with a non-nil
template and returns without error, the returned URL list is non-empty
and has exactly one rendered-and-parsed URL per strictly-positive
`NodePort` of the service, in the order those ports appear in the
service spec. -/
theorem getServiceURLsWithClient_ok_urls (render : Template) (parse : URLParser)
    (client : ClientM) (ip ns name : String) (svc : Service) (urls : List String)
    (hget : (client.services ns).get name = .ok svc)
    (hres : getServiceURLsWithClient (some render) parse client ip ns name = .ok urls) :
    urls ≠ [] ∧
      urls.length =
        ((svc.spec.ports.filter (fun p => p.nodePort > 0)).map
          (fun p => p.nodePort)).length ∧
      ∀ (i : Nat)
        (hp : i < ((svc.spec.ports.filter (fun p => p.nodePort > 0)).map
          (fun p => p.nodePort)).length)
        (hu : i < urls.length),
        ∃ doc,
          render ip (((svc.spec.ports.filter (fun p => p.nodePort > 0)).map
            (fun p => p.nodePort)).get ⟨i, hp⟩) = .ok doc ∧
            parse doc = .ok (urls.get ⟨i, hu⟩) := by
  unfold getServiceURLsWithClient getServicePorts getServicePortsFromServiceGetter
    getServiceFromServiceGetter at hres
  rw [hget] at hres
  simp only at hres
  by_cases hne : ((if svc.spec.ports.length > 0 then
      (svc.spec.ports.filter (fun p => p.nodePort > 0)).map (fun p => p.nodePort)
    else []) : List Int).length = 0
  · rw [if_pos hne] at hres
    cases hres
  · rw [if_neg hne] at hres
    have hports : (if svc.spec.ports.length > 0 then
        (svc.spec.ports.filter (fun p => p.nodePort > 0)).map (fun p => p.nodePort)
      else [])
        = (svc.spec.ports.filter (fun p => p.nodePort > 0)).map (fun p => p.nodePort) := by
      by_cases hl : svc.spec.ports.length > 0
      · rw [if_pos hl]
      · rw [if_neg hl]
        have : svc.spec.ports = [] := by
          cases hsp : svc.spec.ports with
          | nil => rfl
          | cons a l => rw [hsp] at hl; exact absurd (by simp) hl
        rw [this]
        rfl
    rw [hports] at hres hne
    obtain ⟨hlen, hpt⟩ := renderURLs_ok_pointwise render parse ip _ urls hres
    refine ⟨?_, hlen, hpt⟩
    intro hnil
    rw [hnil] at hlen
    exact hne (by rw [← hlen]; rfl)

theorem getServiceURLsWithClient_ok_urls_witness :
    (twoSvcClient.services "default").get "dashboard" = .ok svcWithPort ∧
      getServiceURLsWithClient (some demoRender) demoParse twoSvcClient
          "10.0.0.5" "default" "dashboard" = .ok ["http://10.0.0.5:31000"] ∧
      ["http://10.0.0.5:31000"] ≠ ([] : List String) := by
  refine ⟨rfl, rfl, ?_⟩
  exact (getServiceURLsWithClient_ok_urls demoRender demoParse twoSvcClient
    "10.0.0.5" "default" "dashboard" svcWithPort ["http://10.0.0.5:31000"] rfl rfl).1

/-- The fixed default control-plane version. Modelled from the spec:
`constants.DefaultKubernetesVersion` lives in `pkg/minikube/constants`,
which is not under `src/`; only its role as "the fixed default version
string" matters, never its value. -/
def DefaultKubernetesVersion : String := "v1.5.1"

/-- The Kubernetes configuration field `UpdateCluster` branches on. -/
structure KubernetesConfig where
  kubernetesVersion : String
deriving DecidableEq, Repr

/-- `localkubeURIWasSpecified(config)`: the version flag was passed by
the user iff it differs from the compiled-in default. -/
def localkubeURIWasSpecified (config : KubernetesConfig) : Bool :=
  config.kubernetesVersion ≠ DefaultKubernetesVersion

/-- Oracle environment for `UpdateCluster`: ssh client construction, the
two localkube delivery paths, addon-bundle enumeration (already filtered
to enabled bundles, with the enumeration's possible error), and the
per-file transfer results. -/
structure UpdateEnv where
  sshClientRes : Option GoError
  uriUpdateRes : Option GoError
  assetUpdateRes : Option GoError
  addonFiles : Except GoError (List (String × String))
  transferRes : String → Option GoError

/-- The `for _, copyableFile := range copyableFiles` loop of
`UpdateCluster`: transfer each (filename, perms) asset, aborting on the
first failure. -/
def transferLoop (tr : String → Option GoError) :
    List (String × String) → Option GoError × List Call
  | [] => (none, [])
  | (name, perms) :: rest =>
    match tr name with
    | some e => (some e, [.transfer name perms])
    | none =>
      let r := transferLoop tr rest
      (r.1, .transfer name perms :: r.2)

/-- `UpdateCluster(h, d, config)`: open an ssh client, deliver localkube
from its source URI when the configured version differs from the default
and from the bundled asset otherwise, then transfer the enabled addon
and user file assets. -/
def UpdateCluster (env : UpdateEnv) (config : KubernetesConfig) :
    Option GoError × List Call :=
  match env.sshClientRes with
  | some e => (some (.wrap "Error creating new ssh client" e), [])
  | none =>
    if localkubeURIWasSpecified config then
      match env.uriUpdateRes with
      | some e => (some (.wrap "Error updating localkube from uri" e), [.updateFromURI])
      | none =>
        match env.addonFiles with
        | .error e => (some e, [.updateFromURI])
        | .ok files =>
          let r := transferLoop env.transferRes files
          (r.1, .updateFromURI :: r.2)
    else
      match env.assetUpdateRes with
      | some e => (some (.wrap "Error updating localkube from asset" e), [.updateFromAsset])
      | none =>
        match env.addonFiles with
        | .error e => (some e, [.updateFromAsset])
        | .ok files =>
          let r := transferLoop env.transferRes files
          (r.1, .updateFromAsset :: r.2)

theorem transferLoop_trace_only_transfers (tr : String → Option GoError) :
    ∀ (files : List (String × String)) (c : Call),
      c ∈ (transferLoop tr files).2 → ∃ n p, c = .transfer n p := by
  intro files
  induction files with
  | nil => intro c h; simp [transferLoop] at h
  | cons f rest ih =>
    intro c h
    obtain ⟨name, perms⟩ := f
    simp only [transferLoop] at h
    cases ht : tr name with
    | some e =>
      rw [ht] at h
      simp only [List.mem_singleton] at h
      exact ⟨name, perms, h⟩
    | none =>
      rw [ht] at h
      simp only [List.mem_cons] at h
      rcases h with rfl | h
      · exact ⟨name, perms, rfl⟩
      · exact ih c h

/-- C8: once the ssh client is up, `UpdateCluster` takes the
fetch-from-URI path exactly when the configured Kubernetes version
string differs from the fixed default version string, and the
bundled-asset path exactly when it equals the default; a user-specified
version equal to the default therefore does not fetch from the URI. -/
theorem updateCluster_version_branch (env : UpdateEnv) (config : KubernetesConfig)
    (hssh : env.sshClientRes = none) :
    ((Call.updateFromURI ∈ (UpdateCluster env config).2) ↔
        config.kubernetesVersion ≠ DefaultKubernetesVersion) ∧
      ((Call.updateFromAsset ∈ (UpdateCluster env config).2) ↔
        config.kubernetesVersion = DefaultKubernetesVersion) := by
  unfold UpdateCluster
  rw [hssh]
  simp only
  by_cases hv : config.kubernetesVersion = DefaultKubernetesVersion
  · rw [if_neg (by simp [localkubeURIWasSpecified, hv])]
    cases ha : env.assetUpdateRes with
    | some e =>
      constructor
      · constructor
        · intro hmem; simp at hmem
        · intro hne; exact absurd hv hne
      · simp [hv]
    | none =>
      cases haf : env.addonFiles with
      | error e =>
        constructor
        · constructor
          · intro hmem; simp at hmem
          · intro hne; exact absurd hv hne
        · simp [hv]
      | ok files =>
        constructor
        · constructor
          · intro hmem
            simp only [List.mem_cons] at hmem
            rcases hmem with hmem | hmem
            · cases hmem
            · obtain ⟨n, p, hc⟩ := transferLoop_trace_only_transfers
                env.transferRes files _ hmem
              cases hc
          · intro hne; exact absurd hv hne
        · simp [hv]
  · rw [if_pos (by simp [localkubeURIWasSpecified, hv])]
    cases hu : env.uriUpdateRes with
    | some e =>
      constructor
      · simp [hv]
      · constructor
        · intro hmem; simp at hmem
        · intro heq; exact absurd heq hv
    | none =>
      cases haf : env.addonFiles with
      | error e =>
        constructor
        · simp [hv]
        · constructor
          · intro hmem; simp at hmem
          · intro heq; exact absurd heq hv
      | ok files =>
        constructor
        · simp [hv]
        · constructor
          · intro hmem
            simp only [List.mem_cons] at hmem
            rcases hmem with hmem | hmem
            · cases hmem
            · obtain ⟨n, p, hc⟩ := transferLoop_trace_only_transfers
                env.transferRes files _ hmem
              cases hc
          · intro heq; exact absurd heq hv

/-- All-successful bootstrap environment for the version-branch witness. -/
def updateEnvOK : UpdateEnv where
  sshClientRes := none
  uriUpdateRes := none
  assetUpdateRes := none
  addonFiles := .ok [("dashboard.yaml", "0640")]
  transferRes := fun _ => none

theorem updateCluster_version_branch_witness :
    updateEnvOK.sshClientRes = none ∧
      Call.updateFromAsset ∈ (UpdateCluster updateEnvOK ⟨DefaultKubernetesVersion⟩).2 ∧
      Call.updateFromURI ∉ (UpdateCluster updateEnvOK ⟨DefaultKubernetesVersion⟩).2 := by
  have h := updateCluster_version_branch updateEnvOK ⟨DefaultKubernetesVersion⟩ rfl
  refine ⟨rfl, h.2.mpr rfl, fun hmem => (h.1.mp hmem) rfl⟩

end Minikube
